import Mathlib

/-!
Verification of the schema compliance and drift-detection engine.

Shallow embedding of the core logic:
- `src/src/schemas/wsdl-validator.ts` (WSDL structural model builder and
  SOAP body structural validator),
- `src/src/schemas/schema-validator.ts` (JSON Schema compiler registry),
- `src/scripts/schema-drift-check.ts` (drift detector).

Modelling conventions:
- JavaScript `Map<string, V>` becomes an association list `List (String × V)`
  looked up with `List.lookup`; `Map.set` becomes `setEntry`, which replaces
  the value in place when the key exists (preserving insertion order, as a
  JS Map does) and appends otherwise.
- An optional attribute or object member of the loosely typed parsed XML/JSON
  tree becomes `Option String`; the JS truthiness test on such a value
  (`undefined` and the empty string are falsy) becomes `jsTruthy`, and the
  JS `a || b` default idiom on strings becomes `jsStrOr`.
- The third-party XML parser (fast-xml-parser) and JSON parser are outside
  the embedding boundary: functions take the already-parsed structure that
  the code reads (element attributes, body child names) as input.
- `fetch`, which either rejects (network error, modelled by
  `FetchOutcome.failure`) or resolves with a response carrying an `ok` flag,
  a status and a parsed payload (`FetchOutcome.response`), is modelled by the
  `FetchOutcome` sum.
-/

-- ── JS value helpers ────────────────────────────────────────────────────────

/-- Truthiness of an optional JS string: `undefined` and `""` are falsy. -/
def jsTruthy : Option String → Bool
  | none => false
  | some s => s != ""

/-- The JS `a || b` default idiom on an optional string. -/
def jsStrOr (a : Option String) (b : String) : String :=
  match a with
  | none => b
  | some s => if s == "" then b else s

/-- Test whether the first character list is an initial run of the second. -/
def listLeads : List Char → List Char → Bool
  | [], _ => true
  | _ :: _, [] => false
  | c :: cs, d :: ds => c == d && listLeads cs ds

/-- JS `String.prototype.startsWith`, modelled on the character list (the
built-in `String.startsWith` of the proof assistant does not evaluate). -/
def jsStartsWith (s pre : String) : Bool := listLeads pre.data s.data

/-- JS `Map.set`: replace in place when the key exists, else append. -/
def setEntry {α : Type} : List (String × α) → String → α → List (String × α)
  | [], k, v => [(k, v)]
  | (k2, v2) :: rest, k, v =>
    if k2 == k then (k, v) :: rest else (k2, v2) :: setEntry rest k v


-- ── WSDL validator: types (wsdl-validator.ts) ───────────────────────────────

/-- Interface `WsdlElement` of wsdl-validator.ts. The optional `children` member of the
source interface is never assigned by the code and is omitted. -/
structure WsdlElement where
  name : String
  type : String
  required : Bool
deriving Repr, DecidableEq

/-- Interface `WsdlOperation` of wsdl-validator.ts. -/
structure WsdlOperation where
  name : String
  soapAction : String
  input : List WsdlElement
  output : List WsdlElement
deriving Repr, DecidableEq

/-- Interface `WsdlValidationResult` of wsdl-validator.ts. -/
structure WsdlValidationResult where
  valid : Bool
  missingElements : List String
  unexpectedElements : List String
  operation : String
deriving Repr, DecidableEq

/-- One item of the `complexType.sequence` of an element, as read by
`getElementFields`: the `@_name`, `@_type` and `@_minOccurs` attributes
produced by the XML parser (attribute values stay strings since attribute
parsing is not enabled). -/
structure RawSeqItem where
  attrName : Option String
  attrType : Option String
  attrMinOccurs : Option String
deriving Repr, DecidableEq

/-- A raw schema element as stored in `rawElements`: its `@_name` attribute
and the normalized item list obtained from
`element.complexType?.sequence?.element || element.complexType?.sequence`
after array normalization (`[]` when that optional chain is falsy). -/
structure RawElement where
  attrName : Option String
  seqItems : List RawSeqItem
deriving Repr, DecidableEq

/-- One operation of the binding section, as read by `extractOperations`:
its `@_name` and the optional `operation?.["@_soapAction"]` attribute. -/
structure RawBindingOp where
  name : String
  soapAction : Option String
deriving Repr, DecidableEq

/-- Direction argument of `validateSoapBody`. -/
inductive Direction where
  | input
  | output
deriving Repr, DecidableEq

/-- One child element of the parsed SOAP `Envelope.Body`: `keys` is
`Object.keys` of the child object. -/
structure SoapChild where
  keys : List String
deriving Repr, DecidableEq

/-- The parsed SOAP document as read by `validateSoapBody`:
`body = none` models a falsy `parsed.Envelope?.Body`; otherwise the body is
the list of its child elements keyed by name. A child whose parsed value is
falsy (for instance a self-closing element parsed as the empty string) is
modelled as absent from the list, matching the `!responseBody` test. -/
structure SoapDoc where
  body : Option (List (String × SoapChild))
deriving Repr, DecidableEq

-- ── WSDL validator: model building ──────────────────────────────────────────

/-- The arrow function inside `getElementFields`: one sequence item (whose
`@_name` passed the truthiness filter) becomes a `WsdlElement`. -/
def fieldOfItem (item : RawSeqItem) : WsdlElement :=
  { name := item.attrName.getD ""
    type := jsStrOr item.attrType "complex"
    required := item.attrMinOccurs != some "0" }

/-- Method `WsdlValidator.getElementFields`: look the element up by name; an absent
element yields `[]`; otherwise filter the sequence items on a truthy
`@_name` and map them to field descriptors. -/
def getElementFields (rawElements : List (String × RawElement))
    (elementName : String) : List WsdlElement :=
  match rawElements.lookup elementName with
  | none => []
  | some element =>
    (element.seqItems.filter (fun item => jsTruthy item.attrName)).map fieldOfItem

/-- Method `WsdlValidator.extractElements`: record every schema element with a
truthy `@_name` into the `rawElements` map. -/
def extractElements (elements : List RawElement) : List (String × RawElement) :=
  elements.foldl
    (fun acc element =>
      if jsTruthy element.attrName then
        setEntry acc (element.attrName.getD "") element
      else acc)
    []

/-- Method `WsdlValidator.extractOperations`: for every binding operation build a
`WsdlOperation` whose field lists come from the `{name}Request` and
`{name}Response` elements. -/
def extractOperations (rawElements : List (String × RawElement))
    (bindingOps : List RawBindingOp) : List (String × WsdlOperation) :=
  bindingOps.foldl
    (fun acc op =>
      setEntry acc op.name
        { name := op.name
          soapAction := jsStrOr op.soapAction ""
          input := getElementFields rawElements (op.name ++ "Request")
          output := getElementFields rawElements (op.name ++ "Response") })
    []

-- ── WSDL validator: SOAP body validation ────────────────────────────────────

/-- Method `WsdlValidator.validateSoapBody`, over the already-parsed SOAP document. -/
def validateSoapBody (operations : List (String × WsdlOperation))
    (doc : SoapDoc) (operationName : String) (direction : Direction) :
    WsdlValidationResult :=
  match operations.lookup operationName with
  | none =>
    { valid := false
      missingElements := ["Operation not found: " ++ operationName]
      unexpectedElements := []
      operation := operationName }
  | some operation =>
    let expectedFields :=
      match direction with
      | .input => operation.input
      | .output => operation.output
    match doc.body with
    | none =>
      { valid := false
        missingElements := ["SOAP Body not found"]
        unexpectedElements := []
        operation := operationName }
    | some body =>
      let responseName :=
        match direction with
        | .input => operationName ++ "Request"
        | .output => operationName ++ "Response"
      match body.lookup responseName with
      | none =>
        { valid := false
          missingElements := [responseName ++ " element not found in SOAP Body"]
          unexpectedElements := []
          operation := operationName }
      | some responseBody =>
        let actualKeys := responseBody.keys
        let missingElements :=
          (expectedFields.filter
            (fun f => f.required && !(actualKeys.contains f.name))).map
            (fun f => f.name)
        let expectedNames := expectedFields.map (fun f => f.name)
        let unexpectedElements :=
          actualKeys.filter
            (fun k => !(expectedNames.contains k) && !(jsStartsWith k "@_"))
        { valid := missingElements.isEmpty
          missingElements := missingElements
          unexpectedElements := unexpectedElements
          operation := operationName }


-- ── Drift detector (schema-drift-check.ts) ──────────────────────────────────

/-- Interface `DriftResult` of schema-drift-check.ts. -/
structure DriftResult where
  schema : String
  drifted : Bool
  details : List String
deriving Repr, DecidableEq

/-- Outcome of the `try` block surrounding the live fetch: `failure` models
any exception thrown inside it (a rejected `fetch`, a local read or a parse
throw); `response` models a resolved `fetch` whose `ok` flag and status are
inspected and whose payload, already reduced to the comparable structural
projection (operation names, or the `required || []` field list), is read
only when `ok` is true. -/
inductive FetchOutcome (α : Type) where
  | failure (message : String)
  | response (ok : Bool) (status : Nat) (value : α)
deriving Repr, DecidableEq

/-- Function `checkWsdlDrift` of schema-drift-check.ts. `localOps` is the operation
name list extracted from the local WSDL file (read inside the `try` block,
so a read failure is part of `FetchOutcome.failure`). -/
def checkWsdlDrift (localWsdlExists : Bool) (app2Url : Option String)
    (localOps : List String) (live : FetchOutcome (List String)) : DriftResult :=
  if localWsdlExists = false then
    { schema := "App2 WSDL (order-service.wsdl)"
      drifted := true
      details := ["Local WSDL file not found"] }
  else if jsTruthy app2Url = false then
    { schema := "App2 WSDL (order-service.wsdl)"
      drifted := false
      details := ["APP2_STAGING_URL not set — skipping live WSDL fetch"] }
  else
    match live with
    | .failure msg =>
      { schema := "App2 WSDL (order-service.wsdl)"
        drifted := false
        details := ["Error checking WSDL drift: " ++ msg] }
    | .response ok status liveOps =>
      if ok = false then
        { schema := "App2 WSDL (order-service.wsdl)"
          drifted := true
          details := ["Failed to fetch live WSDL: HTTP " ++ toString status] }
      else
        let removedOps := localOps.filter (fun op => !(liveOps.contains op))
        let newOps := liveOps.filter (fun op => !(localOps.contains op))
        let drifted := !removedOps.isEmpty || !newOps.isEmpty
        { schema := "App2 WSDL (order-service.wsdl)"
          drifted := drifted
          details :=
            removedOps.map (fun op => "Operation REMOVED from live WSDL: " ++ op) ++
            newOps.map (fun op => "New operation in live WSDL: " ++ op) ++
            (if drifted then [] else ["All operations match"]) }

/-- Function `checkMessageSchemaDrift` of schema-drift-check.ts. `localRequired` is
the `required || []` list of the local schema file (read inside the `try`
block) and the fetch payload is the `required || []` list of the live
schema JSON. -/
def checkMessageSchemaDrift (integrationLayerUrl : Option String)
    (localRequired : List String) (live : FetchOutcome (List String)) :
    DriftResult :=
  if jsTruthy integrationLayerUrl = false then
    { schema := "Integration Layer Message Schemas"
      drifted := false
      details := ["INTEGRATION_LAYER_URL not set — skipping live schema fetch"] }
  else
    match live with
    | .failure msg =>
      { schema := "Integration Layer Message Schemas"
        drifted := false
        details := ["Error checking message schema drift: " ++ msg] }
    | .response ok _status liveRequired =>
      if ok = false then
        { schema := "Integration Layer Message Schemas"
          drifted := false
          details :=
            ["Integration Layer does not expose schemas via API — manual check required"] }
      else
        let removedFields := localRequired.filter (fun f => !(liveRequired.contains f))
        let newFields := liveRequired.filter (fun f => !(localRequired.contains f))
        let drifted := !removedFields.isEmpty || !newFields.isEmpty
        { schema := "Integration Layer Message Schemas"
          drifted := drifted
          details :=
            removedFields.map (fun f => "Required field removed from live schema: " ++ f) ++
            newFields.map (fun f => "New required field in live schema: " ++ f) ++
            (if drifted then [] else ["Message schemas match"]) }


-- ── JSON Schema validator (schema-validator.ts) ─────────────────────────────

/-- Interface `ValidationResult` of schema-validator.ts, parameterized by the error
object type `ε` of the underlying JSON Schema engine. -/
structure ValidationResult (ε : Type) where
  valid : Bool
  errors : Option (List ε)
  schemaId : String
deriving Repr, DecidableEq

/-- A compiled validating function over payload type `π`: calling it returns
the verdict together with the error list it deposits in its `errors`
property (absent when the engine sets none, mirroring the
`validate.errors ?? null` read). A compiled validator is a pure function of
the payload. -/
structure CompiledValidator (π ε : Type) where
  run : π → Bool × Option (List ε)

/-- The `validators` map of a `SchemaValidator` instance. -/
def SchemaRegistry (π ε : Type) : Type := List (String × CompiledValidator π ε)

/-- Identifier resolution of `loadSchema`:
`schemaId || schemaContent.$id || absolutePath` (JS `||`, so an empty
string falls through like an absent value). -/
def resolveSchemaId (schemaId docId : Option String) (absolutePath : String) :
    String :=
  jsStrOr schemaId (jsStrOr docId absolutePath)

/-- Method `SchemaValidator.loadSchema`: compile the document (given here as the
already-compiled validating function) and register it under the resolved
identifier. -/
def SchemaValidator.loadSchema {π ε : Type} (validators : SchemaRegistry π ε)
    (schemaId docId : Option String) (absolutePath : String)
    (compiled : CompiledValidator π ε) : SchemaRegistry π ε :=
  setEntry validators (resolveSchemaId schemaId docId absolutePath) compiled

/-- Method `SchemaValidator.validate`: look up the compiled validator; an
unregistered id throws (modelled by `Except.error` carrying the exact
message); otherwise run it and assemble the result. -/
def SchemaValidator.validate {π ε : Type} (validators : SchemaRegistry π ε)
    (schemaId : String) (payload : π) :
    Except String (ValidationResult ε) :=
  match List.lookup schemaId validators with
  | none =>
    .error ("Schema not loaded: " ++ schemaId ++ ". Available: " ++
      String.intercalate ", " (validators.map (fun e => e.1)))
  | some v =>
    let valid := (v.run payload).1
    .ok { valid := valid
          errors := if valid then none else (v.run payload).2
          schemaId := schemaId }

/-- State-passing form of the `validate` method: the method body reads
`this.validators` and never assigns it, so the registry threads through
unchanged. -/
def SchemaValidator.validateRun {π ε : Type} (validators : SchemaRegistry π ε)
    (schemaId : String) (payload : π) :
    Except String (ValidationResult ε) × SchemaRegistry π ε :=
  (SchemaValidator.validate validators schemaId payload, validators)


-- ── Helper lemmas ───────────────────────────────────────────────────────────

theorem lookup_setEntry {α : Type} (m : List (String × α)) (k k2 : String) (v : α) :
    (setEntry m k v).lookup k2 = if k2 == k then some v else m.lookup k2 := by
  induction m with
  | nil =>
    by_cases h : k2 = k
    · simp [setEntry, List.lookup, h]
    · have hb : (k2 == k) = false := beq_eq_false_iff_ne.mpr h
      simp [setEntry, List.lookup, hb, h]
  | cons hd tl ih =>
    obtain ⟨k3, v3⟩ := hd
    by_cases h3 : k3 = k
    · subst h3
      have hsf : setEntry ((k3, v3) :: tl) k3 v = (k3, v) :: tl := by
        simp [setEntry]
      rw [hsf]
      by_cases h2 : k2 = k3
      · simp [List.lookup, h2]
      · have hb : (k2 == k3) = false := beq_eq_false_iff_ne.mpr h2
        simp [List.lookup, hb, h2]
    · have hsf : setEntry ((k3, v3) :: tl) k v = (k3, v3) :: setEntry tl k v := by
        simp [setEntry, beq_iff_eq, h3]
      rw [hsf]
      by_cases h2 : k2 = k3
      · have hne : ¬(k2 = k) := by rw [h2]; exact h3
        simp [List.lookup, h2, hne, h3]
      · have hb : (k2 == k3) = false := beq_eq_false_iff_ne.mpr h2
        simp [List.lookup, hb, ih]
-- ── Helper lemmas for the set-difference pattern ────────────────────────────

theorem mem_filter_not_contains {xs ys : List String} {x : String}
    (h1 : x ∈ xs) (h2 : x ∉ ys) :
    x ∈ xs.filter (fun o => !(ys.contains o)) := by
  refine List.mem_filter.mpr ⟨h1, ?_⟩
  simp [h2]

theorem isEmpty_false_filter_not_contains {xs ys : List String} {x : String}
    (h1 : x ∈ xs) (h2 : x ∉ ys) :
    (xs.filter (fun o => !(ys.contains o))).isEmpty = false := by
  have hne := List.ne_nil_of_mem (mem_filter_not_contains h1 h2)
  rw [Bool.eq_false_iff]
  intro hcon
  exact hne (List.isEmpty_iff.mp hcon)

theorem filter_not_contains_eq_nil {xs ys : List String}
    (h : ∀ o ∈ xs, o ∈ ys) :
    xs.filter (fun o => !(ys.contains o)) = [] := by
  refine List.filter_eq_nil_iff.mpr ?_
  intro a ha
  simp [h a ha]

theorem jsStrOr_ne_empty (a : Option String) (b : String) (hb : b ≠ "") :
    jsStrOr a b ≠ "" := by
  cases a with
  | none => simpa [jsStrOr]
  | some s =>
    by_cases hs : s = ""
    · simp [jsStrOr, hs]
      exact hb
    · have hbs : (s == "") = false := beq_eq_false_iff_ne.mpr hs
      simp [jsStrOr, hbs]
      exact hs

-- ── Theorems: C1 ────────────────────────────────────────────────────────────

/-- Claim C1: for every loaded model, parsed SOAP document, operation name and
direction, the result of `validateSoapBody` has `valid = true` exactly when
its `missingElements` list is empty; in particular `unexpectedElements` never
affects `valid`, which is a function of `missingElements` alone. -/
theorem wsdl_valid_iff_no_missing (operations : List (String × WsdlOperation))
    (doc : SoapDoc) (operationName : String) (direction : Direction) :
    ((validateSoapBody operations doc operationName direction).valid = true) ↔
      (validateSoapBody operations doc operationName direction).missingElements = [] := by
  unfold validateSoapBody
  cases hop : operations.lookup operationName with
  | none => simp
  | some operation =>
    cases hb : doc.body with
    | none => simp
    | some body =>
      cases direction with
      | input =>
        cases hc : body.lookup (operationName ++ "Request") with
        | none => simp [hc]
        | some responseBody => simp [hc, List.isEmpty_iff]
      | output =>
        cases hc : body.lookup (operationName ++ "Response") with
        | none => simp [hc]
        | some responseBody => simp [hc, List.isEmpty_iff]
-- ── Theorems: C2 ────────────────────────────────────────────────────────────

/-- Claim C2: when the local baseline loads and the live fetch succeeds, both
drift checks compute the symmetric set difference of the local and live name
sets: a name present locally but absent live produces a removed detail with
`drifted = true`, a name present live but absent locally produces an
added/new detail with `drifted = true`, and identical sets give
`drifted = false` with a match detail. -/
theorem drift_symmetric_difference
    (localOps liveOps localRequired liveRequired : List String)
    (app2Url integrationLayerUrl : Option String) (status status2 : Nat)
    (h1 : jsTruthy app2Url = true) (h2 : jsTruthy integrationLayerUrl = true) :
    (∀ op ∈ localOps, op ∉ liveOps →
      ("Operation REMOVED from live WSDL: " ++ op) ∈
        (checkWsdlDrift true app2Url localOps
          (.response true status liveOps)).details ∧
      (checkWsdlDrift true app2Url localOps
        (.response true status liveOps)).drifted = true) ∧
    (∀ op ∈ liveOps, op ∉ localOps →
      ("New operation in live WSDL: " ++ op) ∈
        (checkWsdlDrift true app2Url localOps
          (.response true status liveOps)).details ∧
      (checkWsdlDrift true app2Url localOps
        (.response true status liveOps)).drifted = true) ∧
    ((∀ op, op ∈ localOps ↔ op ∈ liveOps) →
      (checkWsdlDrift true app2Url localOps
        (.response true status liveOps)).drifted = false ∧
      (checkWsdlDrift true app2Url localOps
        (.response true status liveOps)).details = ["All operations match"]) ∧
    (∀ f ∈ localRequired, f ∉ liveRequired →
      ("Required field removed from live schema: " ++ f) ∈
        (checkMessageSchemaDrift integrationLayerUrl localRequired
          (.response true status2 liveRequired)).details ∧
      (checkMessageSchemaDrift integrationLayerUrl localRequired
        (.response true status2 liveRequired)).drifted = true) ∧
    (∀ f ∈ liveRequired, f ∉ localRequired →
      ("New required field in live schema: " ++ f) ∈
        (checkMessageSchemaDrift integrationLayerUrl localRequired
          (.response true status2 liveRequired)).details ∧
      (checkMessageSchemaDrift integrationLayerUrl localRequired
        (.response true status2 liveRequired)).drifted = true) ∧
    ((∀ f, f ∈ localRequired ↔ f ∈ liveRequired) →
      (checkMessageSchemaDrift integrationLayerUrl localRequired
        (.response true status2 liveRequired)).drifted = false ∧
      (checkMessageSchemaDrift integrationLayerUrl localRequired
        (.response true status2 liveRequired)).details = ["Message schemas match"]) := by
  have hw : checkWsdlDrift true app2Url localOps (.response true status liveOps) =
      { schema := "App2 WSDL (order-service.wsdl)"
        drifted := !(localOps.filter (fun op => !(liveOps.contains op))).isEmpty ||
          !(liveOps.filter (fun op => !(localOps.contains op))).isEmpty
        details :=
          (localOps.filter (fun op => !(liveOps.contains op))).map
            (fun op => "Operation REMOVED from live WSDL: " ++ op) ++
          (liveOps.filter (fun op => !(localOps.contains op))).map
            (fun op => "New operation in live WSDL: " ++ op) ++
          (if (!(localOps.filter (fun op => !(liveOps.contains op))).isEmpty ||
              !(liveOps.filter (fun op => !(localOps.contains op))).isEmpty) then []
            else ["All operations match"]) } := by
    simp only [checkWsdlDrift, h1]
    simp
  have hm : checkMessageSchemaDrift integrationLayerUrl localRequired
      (.response true status2 liveRequired) =
      { schema := "Integration Layer Message Schemas"
        drifted := !(localRequired.filter (fun f => !(liveRequired.contains f))).isEmpty ||
          !(liveRequired.filter (fun f => !(localRequired.contains f))).isEmpty
        details :=
          (localRequired.filter (fun f => !(liveRequired.contains f))).map
            (fun f => "Required field removed from live schema: " ++ f) ++
          (liveRequired.filter (fun f => !(localRequired.contains f))).map
            (fun f => "New required field in live schema: " ++ f) ++
          (if (!(localRequired.filter (fun f => !(liveRequired.contains f))).isEmpty ||
              !(liveRequired.filter (fun f => !(localRequired.contains f))).isEmpty) then []
            else ["Message schemas match"]) } := by
    simp only [checkMessageSchemaDrift, h2]
    simp
  refine ⟨?_, ?_, ?_, ?_, ?_, ?_⟩
  · intro op hop hnot
    rw [hw]
    constructor
    · exact List.mem_append_left _
        (List.mem_append_left _
          (List.mem_map_of_mem _ (mem_filter_not_contains hop hnot)))
    · rw [isEmpty_false_filter_not_contains hop hnot]
      simp
  · intro op hop hnot
    rw [hw]
    constructor
    · exact List.mem_append_left _
        (List.mem_append_right _
          (List.mem_map_of_mem _ (mem_filter_not_contains hop hnot)))
    · rw [isEmpty_false_filter_not_contains hop hnot]
      simp
  · intro hiff
    have e1 : localOps.filter (fun op => !(liveOps.contains op)) = [] :=
      filter_not_contains_eq_nil (fun o ho => (hiff o).mp ho)
    have e2 : liveOps.filter (fun op => !(localOps.contains op)) = [] :=
      filter_not_contains_eq_nil (fun o ho => (hiff o).mpr ho)
    rw [hw, e1, e2]
    simp
  · intro f hf hnot
    rw [hm]
    constructor
    · exact List.mem_append_left _
        (List.mem_append_left _
          (List.mem_map_of_mem _ (mem_filter_not_contains hf hnot)))
    · rw [isEmpty_false_filter_not_contains hf hnot]
      simp
  · intro f hf hnot
    rw [hm]
    constructor
    · exact List.mem_append_left _
        (List.mem_append_right _
          (List.mem_map_of_mem _ (mem_filter_not_contains hf hnot)))
    · rw [isEmpty_false_filter_not_contains hf hnot]
      simp
  · intro hiff
    have e1 : localRequired.filter (fun f => !(liveRequired.contains f)) = [] :=
      filter_not_contains_eq_nil (fun o ho => (hiff o).mp ho)
    have e2 : liveRequired.filter (fun f => !(localRequired.contains f)) = [] :=
      filter_not_contains_eq_nil (fun o ho => (hiff o).mpr ho)
    rw [hm, e1, e2]
    simp

/-- Witness for C2: the concrete removed-operation scenario of the spec
(local operations CreateOrder and GetOrderStatus, live only CreateOrder). -/
theorem drift_symmetric_difference_witness :
    ("Operation REMOVED from live WSDL: " ++ "GetOrderStatus") ∈
      (checkWsdlDrift true (some "https://app2.example")
        ["CreateOrder", "GetOrderStatus"]
        (.response true 200 ["CreateOrder"])).details ∧
    (checkWsdlDrift true (some "https://app2.example")
      ["CreateOrder", "GetOrderStatus"]
      (.response true 200 ["CreateOrder"])).drifted = true :=
  (drift_symmetric_difference ["CreateOrder", "GetOrderStatus"] ["CreateOrder"]
    [] [] (some "https://app2.example") (some "http://il.example") 200 200
    (by decide) (by decide)).1 "GetOrderStatus" (by decide) (by decide)

-- ── Theorems: C3 ────────────────────────────────────────────────────────────

/-- Counterexample to claim C3: with the local WSDL present, the staging URL
configured and the live fetch rejecting (unreachable endpoint), the WSDL
drift check returns `drifted = false` — only an error detail is recorded,
contrary to the claim that an unreachable endpoint yields `drifted = true`. -/
theorem wsdl_unreachable_no_drift_cex :
    (checkWsdlDrift true (some "https://app2-staging.example")
      ["CreateOrder"] (.failure "connect ECONNREFUSED")).drifted = false ∧
    (checkWsdlDrift true (some "https://app2-staging.example")
      ["CreateOrder"] (.failure "connect ECONNREFUSED")).details =
      ["Error checking WSDL drift: connect ECONNREFUSED"] := by
  constructor <;> rfl

/-- Claim C3 as amended: for the WSDL drift check a live response with a
non-success HTTP status yields `drifted = true` with a failure detail, but a
fetch that throws (unreachable endpoint) is caught and yields
`drifted = false` with only an error detail; for the JSON-message drift
check a non-success response yields `drifted = false` with the manual-check
advisory (and a thrown fetch likewise yields `drifted = false`). -/
theorem drift_fetch_failure_behavior
    (app2Url integrationLayerUrl : Option String)
    (localOps localRequired liveOps liveRequired : List String)
    (status status2 : Nat) (msg msg2 : String)
    (h1 : jsTruthy app2Url = true) (h2 : jsTruthy integrationLayerUrl = true) :
    (checkWsdlDrift true app2Url localOps (.response false status liveOps) =
      { schema := "App2 WSDL (order-service.wsdl)"
        drifted := true
        details := ["Failed to fetch live WSDL: HTTP " ++ toString status] }) ∧
    (checkWsdlDrift true app2Url localOps (.failure msg) =
      { schema := "App2 WSDL (order-service.wsdl)"
        drifted := false
        details := ["Error checking WSDL drift: " ++ msg] }) ∧
    (checkMessageSchemaDrift integrationLayerUrl localRequired
        (.response false status2 liveRequired) =
      { schema := "Integration Layer Message Schemas"
        drifted := false
        details :=
          ["Integration Layer does not expose schemas via API — manual check required"] }) ∧
    (checkMessageSchemaDrift integrationLayerUrl localRequired (.failure msg2) =
      { schema := "Integration Layer Message Schemas"
        drifted := false
        details := ["Error checking message schema drift: " ++ msg2] }) := by
  refine ⟨?_, ?_, ?_, ?_⟩ <;>
    simp [checkWsdlDrift, checkMessageSchemaDrift, h1, h2]

/-- Witness for the amended C3 at concrete inputs. -/
theorem drift_fetch_failure_behavior_witness :
    (checkWsdlDrift true (some "https://app2-staging.example") ["CreateOrder"]
        (.response false 503 []) =
      { schema := "App2 WSDL (order-service.wsdl)"
        drifted := true
        details := ["Failed to fetch live WSDL: HTTP " ++ toString 503] }) ∧
    (checkWsdlDrift true (some "https://app2-staging.example") ["CreateOrder"]
        (.failure "boom") =
      { schema := "App2 WSDL (order-service.wsdl)"
        drifted := false
        details := ["Error checking WSDL drift: " ++ "boom"] }) ∧
    (checkMessageSchemaDrift (some "https://il-staging.example") ["eventId"]
        (.response false 404 []) =
      { schema := "Integration Layer Message Schemas"
        drifted := false
        details :=
          ["Integration Layer does not expose schemas via API — manual check required"] }) ∧
    (checkMessageSchemaDrift (some "https://il-staging.example") ["eventId"]
        (.failure "down") =
      { schema := "Integration Layer Message Schemas"
        drifted := false
        details := ["Error checking message schema drift: " ++ "down"] }) :=
  drift_fetch_failure_behavior (some "https://app2-staging.example")
    (some "https://il-staging.example") ["CreateOrder"] ["eventId"] [] []
    503 404 "boom" "down" (by decide) (by decide)

-- ── Theorems: C4 ────────────────────────────────────────────────────────────

/-- Counterexample to claim C4: a sequence item that declares an empty type
attribute (`type=""`) still gets `type = "complex"`, because the JS default
`item["@_type"] || "complex"` treats the empty string as falsy — so
`type = "complex"` does not hold exactly when no type attribute is declared. -/
theorem type_complex_with_declared_attr_cex :
    getElementFields
      [("CreateOrderRequest",
        { attrName := some "CreateOrderRequest"
          seqItems := [{ attrName := some "priority", attrType := some ""
                         attrMinOccurs := none }] })]
      "CreateOrderRequest" =
      [{ name := "priority", type := "complex", required := true }] ∧
    ({ attrName := some "priority", attrType := some ""
       attrMinOccurs := none } : RawSeqItem).attrType ≠ none := by
  constructor
  · rfl
  · simp

/-- Claim C4 as amended: every sequence item with a truthy name attribute
yields its descriptor in the extracted field list; the descriptor has
`required = false` exactly when the minimum-occurrence attribute is the
literal string zero (as claimed), and `type = "complex"` exactly when the
type attribute is absent, empty, or itself the string complex — that is,
`type` equals the declared attribute when present and non-empty, and
defaults to complex otherwise. -/
theorem field_descriptor_defaults (item : RawSeqItem)
    (rawElements : List (String × RawElement)) (elementName : String)
    (el : RawElement)
    (hl : rawElements.lookup elementName = some el)
    (hi : item ∈ el.seqItems)
    (hn : jsTruthy item.attrName = true) :
    fieldOfItem item ∈ getElementFields rawElements elementName ∧
    ((fieldOfItem item).required = false ↔ item.attrMinOccurs = some "0") ∧
    ((fieldOfItem item).type = "complex" ↔
      (item.attrType = none ∨ item.attrType = some "" ∨
        item.attrType = some "complex")) := by
  refine ⟨?_, ?_, ?_⟩
  · unfold getElementFields
    rw [hl]
    exact List.mem_map_of_mem _ (List.mem_filter.mpr ⟨hi, hn⟩)
  · simp [fieldOfItem]
  · unfold fieldOfItem
    cases ht : item.attrType with
    | none => simp [jsStrOr]
    | some s =>
      by_cases hs : s = ""
      · subst hs
        simp [jsStrOr]
      · have hb : (s == "") = false := beq_eq_false_iff_ne.mpr hs
        simp [jsStrOr, hb, hs]

/-- Witness for the amended C4: an optional string-typed item. -/
theorem field_descriptor_defaults_witness :
    fieldOfItem { attrName := some "orderId", attrType := some "string"
                  attrMinOccurs := some "0" } ∈
      getElementFields
        [("CreateOrderRequest",
          { attrName := some "CreateOrderRequest"
            seqItems := [{ attrName := some "orderId", attrType := some "string"
                           attrMinOccurs := some "0" }] })]
        "CreateOrderRequest" ∧
    ((fieldOfItem { attrName := some "orderId", attrType := some "string"
                    attrMinOccurs := some "0" }).required = false ↔
      ({ attrName := some "orderId", attrType := some "string"
         attrMinOccurs := some "0" } : RawSeqItem).attrMinOccurs = some "0") ∧
    ((fieldOfItem { attrName := some "orderId", attrType := some "string"
                    attrMinOccurs := some "0" }).type = "complex" ↔
      (({ attrName := some "orderId", attrType := some "string"
          attrMinOccurs := some "0" } : RawSeqItem).attrType = none ∨
        ({ attrName := some "orderId", attrType := some "string"
           attrMinOccurs := some "0" } : RawSeqItem).attrType = some "" ∨
        ({ attrName := some "orderId", attrType := some "string"
           attrMinOccurs := some "0" } : RawSeqItem).attrType = some "complex")) :=
  field_descriptor_defaults
    { attrName := some "orderId", attrType := some "string"
      attrMinOccurs := some "0" }
    [("CreateOrderRequest",
      { attrName := some "CreateOrderRequest"
        seqItems := [{ attrName := some "orderId", attrType := some "string"
                       attrMinOccurs := some "0" }] })]
    "CreateOrderRequest"
    { attrName := some "CreateOrderRequest"
      seqItems := [{ attrName := some "orderId", attrType := some "string"
                     attrMinOccurs := some "0" }] }
    (by decide) (by decide) (by decide)

-- ── Theorems: C5 ────────────────────────────────────────────────────────────

/-- Counterexample to claim C5: with no `CreateOrderRequest` element in the
element table, loading records an empty input field list, and a subsequent
`validateSoapBody` call whose body carries the `CreateOrderRequest` wrapper
with a child reports nothing missing and returns `valid = true` — the
absence does not surface as fields being reported missing. -/
theorem missing_element_validation_passes_cex :
    validateSoapBody
      (extractOperations [] [{ name := "CreateOrder", soapAction := none }])
      { body := some [("CreateOrderRequest", { keys := ["orderId"] })] }
      "CreateOrder" .input =
      { valid := true
        missingElements := []
        unexpectedElements := ["orderId"]
        operation := "CreateOrder" } := by
  rfl

/-- Claim C5 as amended: when the referenced request element is absent from
the element table, loading succeeds with an empty field list (no load
error); consequently a subsequent `validateSoapBody` call for that operation
and direction can never report a field missing — whenever the body carries
the request wrapper the call returns `valid = true` with empty
`missingElements`, and all children of the wrapper (except attribute markers)
appear in `unexpectedElements`. -/
theorem missing_element_empty_fields
    (rawElements : List (String × RawElement))
    (operations : List (String × WsdlOperation)) (operationName : String)
    (op : WsdlOperation) (doc : SoapDoc) (body : List (String × SoapChild))
    (child : SoapChild)
    (h1 : rawElements.lookup (operationName ++ "Request") = none)
    (hop : operations.lookup operationName = some op)
    (hin : op.input = [])
    (hb : doc.body = some body)
    (hc : body.lookup (operationName ++ "Request") = some child) :
    getElementFields rawElements (operationName ++ "Request") = [] ∧
    validateSoapBody operations doc operationName .input =
      { valid := true
        missingElements := []
        unexpectedElements := child.keys.filter (fun k => !(jsStartsWith k "@_"))
        operation := operationName } := by
  constructor
  · simp [getElementFields, h1]
  · simp only [validateSoapBody, hop, hb, hc, hin]
    simp

/-- Witness for the amended C5 at a concrete model and body. -/
theorem missing_element_empty_fields_witness :
    getElementFields [] ("CreateOrder" ++ "Request") = [] ∧
    validateSoapBody
      (extractOperations [] [{ name := "CreateOrder", soapAction := none }])
      { body := some [("CreateOrderRequest", { keys := ["orderId"] })] }
      "CreateOrder" .input =
      { valid := true
        missingElements := []
        unexpectedElements := ["orderId"].filter (fun k => !(jsStartsWith k "@_"))
        operation := "CreateOrder" } :=
  missing_element_empty_fields []
    (extractOperations [] [{ name := "CreateOrder", soapAction := none }])
    "CreateOrder"
    { name := "CreateOrder", soapAction := "", input := [], output := [] }
    { body := some [("CreateOrderRequest", { keys := ["orderId"] })] }
    [("CreateOrderRequest", { keys := ["orderId"] })]
    { keys := ["orderId"] }
    rfl rfl rfl rfl rfl

-- ── Theorems: C6 ────────────────────────────────────────────────────────────

/-- Claim C6: for an operation name absent from the loaded model,
`validateSoapBody` returns (rather than throws) `valid = false` with exactly
one missing-element entry naming the unknown operation and empty
`unexpectedElements`. -/
theorem unknown_operation_result (operations : List (String × WsdlOperation))
    (doc : SoapDoc) (operationName : String) (direction : Direction)
    (h : operations.lookup operationName = none) :
    validateSoapBody operations doc operationName direction =
      { valid := false
        missingElements := ["Operation not found: " ++ operationName]
        unexpectedElements := []
        operation := operationName } := by
  unfold validateSoapBody
  rw [h]

/-- Witness for C6: an empty model and an unknown operation name. -/
theorem unknown_operation_result_witness :
    validateSoapBody [] { body := none } "CancelOrder" .input =
      { valid := false
        missingElements := ["Operation not found: " ++ "CancelOrder"]
        unexpectedElements := []
        operation := "CancelOrder" } :=
  unknown_operation_result [] { body := none } "CancelOrder" .input rfl

-- ── Theorems: C8 ────────────────────────────────────────────────────────────

/-- Claim C8: a request body whose wrapper carries exactly the names of the
input field list of the operation validates cleanly — `valid = true` with empty
`missingElements` and empty `unexpectedElements`. -/
theorem roundtrip_validate_ok (operations : List (String × WsdlOperation))
    (operationName : String) (op : WsdlOperation) (doc : SoapDoc)
    (body : List (String × SoapChild)) (child : SoapChild)
    (hop : operations.lookup operationName = some op)
    (hb : doc.body = some body)
    (hc : body.lookup (operationName ++ "Request") = some child)
    (hkeys : ∀ k, k ∈ child.keys ↔ k ∈ op.input.map (fun f => f.name)) :
    validateSoapBody operations doc operationName .input =
      { valid := true
        missingElements := []
        unexpectedElements := []
        operation := operationName } := by
  have hmiss :
      op.input.filter (fun f => f.required && !(child.keys.contains f.name)) = [] := by
    refine List.filter_eq_nil_iff.mpr ?_
    intro f hf
    have hmem : f.name ∈ child.keys :=
      (hkeys f.name).mpr (List.mem_map_of_mem _ hf)
    simp [hmem]
  have hunexp :
      child.keys.filter
        (fun k => !((op.input.map (fun f => f.name)).contains k) &&
          !(jsStartsWith k "@_")) = [] := by
    refine List.filter_eq_nil_iff.mpr ?_
    intro k hk
    have hmem : k ∈ op.input.map (fun f => f.name) := (hkeys k).mp hk
    simp [hmem]
  simp only [validateSoapBody, hop, hb, hc, hmiss, hunexp]
  rfl

/-- Witness for C8: validating a body built from the field list of a
two-field operation. -/
theorem roundtrip_validate_ok_witness :
    validateSoapBody
      [("CreateOrder",
        { name := "CreateOrder", soapAction := "urn:createOrder"
          input := [{ name := "orderId", type := "string", required := true },
                    { name := "shippingAddress", type := "complex", required := false }]
          output := [] })]
      { body := some [("CreateOrderRequest",
          { keys := ["orderId", "shippingAddress"] })] }
      "CreateOrder" .input =
      { valid := true
        missingElements := []
        unexpectedElements := []
        operation := "CreateOrder" } :=
  roundtrip_validate_ok
    [("CreateOrder",
      { name := "CreateOrder", soapAction := "urn:createOrder"
        input := [{ name := "orderId", type := "string", required := true },
                  { name := "shippingAddress", type := "complex", required := false }]
        output := [] })]
    "CreateOrder"
    { name := "CreateOrder", soapAction := "urn:createOrder"
      input := [{ name := "orderId", type := "string", required := true },
                { name := "shippingAddress", type := "complex", required := false }]
      output := [] }
    { body := some [("CreateOrderRequest",
        { keys := ["orderId", "shippingAddress"] })] }
    [("CreateOrderRequest", { keys := ["orderId", "shippingAddress"] })]
    { keys := ["orderId", "shippingAddress"] }
    rfl rfl rfl (fun _ => Iff.rfl)
-- ── Theorems: C7 ────────────────────────────────────────────────────────────

/-- Claim C7: `validate` on an unregistered id throws an error whose message
enumerates the registered schema ids; on a registered id it returns a result
whose `schemaId` is the id argument, whose `valid` is the compiled
verdict of the compiled validator, and whose `errors` is null when valid and the
violation list otherwise. -/
theorem schema_validate_contract {π ε : Type} (validators : SchemaRegistry π ε)
    (schemaId : String) (payload : π) :
    (List.lookup schemaId validators = none →
      SchemaValidator.validate validators schemaId payload =
        .error ("Schema not loaded: " ++ schemaId ++ ". Available: " ++
          String.intercalate ", " (validators.map (fun e => e.1)))) ∧
    (∀ v : CompiledValidator π ε, List.lookup schemaId validators = some v →
      (v.run payload).1 = true →
      SchemaValidator.validate validators schemaId payload =
        .ok { valid := true, errors := none, schemaId := schemaId }) ∧
    (∀ (v : CompiledValidator π ε) (errs : List ε),
      List.lookup schemaId validators = some v →
      v.run payload = (false, some errs) →
      SchemaValidator.validate validators schemaId payload =
        .ok { valid := false, errors := some errs, schemaId := schemaId }) := by
  refine ⟨?_, ?_, ?_⟩
  · intro h
    simp [SchemaValidator.validate, h]
  · intro v h hv
    simp [SchemaValidator.validate, h, hv]
  · intro v errs h hrun
    simp [SchemaValidator.validate, h, hrun]

/-- Witness for C7: an empty registry rejects with the enumerating message,
and a registered one-entry registry reports the violation list. -/
theorem schema_validate_contract_witness :
    (SchemaValidator.validate ([] : SchemaRegistry Nat String)
      "order-created-event" 0 =
      .error ("Schema not loaded: " ++ "order-created-event" ++
        ". Available: " ++
        String.intercalate ", "
          (([] : SchemaRegistry Nat String).map (fun e => e.1)))) ∧
    (SchemaValidator.validate
      [("order-created-event",
        { run := fun p => (decide (p = 0), some ["payload must be zero"]) })]
      "order-created-event" (1 : Nat) =
      .ok { valid := false, errors := some ["payload must be zero"]
            schemaId := "order-created-event" }) :=
  ⟨(schema_validate_contract ([] : SchemaRegistry Nat String)
      "order-created-event" 0).1 rfl,
   (schema_validate_contract
      [("order-created-event",
        { run := fun p => (decide (p = 0), some ["payload must be zero"]) })]
      "order-created-event" (1 : Nat)).2.2
      { run := fun p => (decide (p = 0), some ["payload must be zero"]) }
      ["payload must be zero"] rfl rfl⟩

-- ── Theorems: C9 ────────────────────────────────────────────────────────────

/-- Claim C9: two `validate` calls with the same id and payload and no
intervening registry mutation return identical results; `validate` itself
never mutates the registry, so the second call runs against the same
registry as the first. -/
theorem validate_deterministic {π ε : Type} (validators : SchemaRegistry π ε)
    (schemaId : String) (payload : π)
    (r1 r2 : Except String (ValidationResult ε)) (s1 s2 : SchemaRegistry π ε)
    (h1 : SchemaValidator.validateRun validators schemaId payload = (r1, s1))
    (h2 : SchemaValidator.validateRun s1 schemaId payload = (r2, s2)) :
    r1 = r2 ∧ s1 = validators ∧ s2 = validators := by
  unfold SchemaValidator.validateRun at h1 h2
  rw [Prod.mk.injEq] at h1 h2
  obtain ⟨hr1, hs1⟩ := h1
  obtain ⟨hr2, hs2⟩ := h2
  subst hs1
  exact ⟨hr1.symm.trans hr2, rfl, hs2.symm⟩

/-- Witness for C9 at a concrete one-entry registry and payload. -/
theorem validate_deterministic_witness :
    (.ok { valid := true, errors := none, schemaId := "order-created-event" } :
      Except String (ValidationResult String)) =
      .ok { valid := true, errors := none, schemaId := "order-created-event" } ∧
    ([("order-created-event",
        ({ run := fun _ => (true, none) } : CompiledValidator Nat String))] :
      SchemaRegistry Nat String) =
      [("order-created-event", { run := fun _ => (true, none) })] ∧
    ([("order-created-event",
        ({ run := fun _ => (true, none) } : CompiledValidator Nat String))] :
      SchemaRegistry Nat String) =
      [("order-created-event", { run := fun _ => (true, none) })] :=
  validate_deterministic
    [("order-created-event", { run := fun _ => (true, none) })]
    "order-created-event" 5
    (.ok { valid := true, errors := none, schemaId := "order-created-event" })
    (.ok { valid := true, errors := none, schemaId := "order-created-event" })
    [("order-created-event", { run := fun _ => (true, none) })]
    [("order-created-event", { run := fun _ => (true, none) })]
    rfl rfl

-- ── Theorems: C10 ───────────────────────────────────────────────────────────

/-- Claim C10: identifier resolution in `loadSchema` treats the empty string
as absent — a caller-supplied empty id is ignored (resolution falls through
to the document id), an empty document id falls through to the resolved
absolute file path, the resolved identifier is never empty (the resolved
absolute path of a file is non-empty), and therefore loading never registers
a schema under the empty-string identifier. -/
theorem schema_id_resolution (schemaId docId : Option String)
    (absolutePath : String) (h : absolutePath ≠ "") :
    resolveSchemaId (some "") docId absolutePath =
      resolveSchemaId none docId absolutePath ∧
    (∀ d : String, d ≠ "" →
      resolveSchemaId (some "") (some d) absolutePath = d) ∧
    resolveSchemaId none (some "") absolutePath = absolutePath ∧
    resolveSchemaId schemaId docId absolutePath ≠ "" ∧
    (∀ (π ε : Type) (validators : SchemaRegistry π ε)
        (compiled : CompiledValidator π ε),
      List.lookup ""
        (SchemaValidator.loadSchema validators schemaId docId absolutePath
          compiled) =
        List.lookup "" validators) := by
  have hne : resolveSchemaId schemaId docId absolutePath ≠ "" :=
    jsStrOr_ne_empty _ _ (jsStrOr_ne_empty _ _ h)
  refine ⟨?_, ?_, ?_, hne, ?_⟩
  · simp [resolveSchemaId, jsStrOr]
  · intro d hd
    have hbd : (d == "") = false := beq_eq_false_iff_ne.mpr hd
    simp [resolveSchemaId, jsStrOr, hbd]
  · simp [resolveSchemaId, jsStrOr]
  · intro π ε validators compiled
    unfold SchemaValidator.loadSchema
    have hb : ("" == resolveSchemaId schemaId docId absolutePath) = false :=
      beq_eq_false_iff_ne.mpr (fun e => hne e.symm)
    rw [lookup_setEntry, hb]
    simp

/-- Witness for C10: an empty caller id falls through to the document id,
and loading with those ids touches no empty-string registry entry. -/
theorem schema_id_resolution_witness :
    resolveSchemaId (some "") (some "order-created-event")
      "/schemas/messages/order-created-event.schema.json" =
      "order-created-event" ∧
    resolveSchemaId (some "") (some "order-created-event")
      "/schemas/messages/order-created-event.schema.json" ≠ "" ∧
    List.lookup ""
      (SchemaValidator.loadSchema ([] : SchemaRegistry Nat String)
        (some "") (some "order-created-event")
        "/schemas/messages/order-created-event.schema.json"
        { run := fun _ => (true, none) }) =
      List.lookup "" ([] : SchemaRegistry Nat String) :=
  ⟨(schema_id_resolution (some "") (some "order-created-event")
      "/schemas/messages/order-created-event.schema.json"
      (by decide)).2.1 "order-created-event" (by decide),
   (schema_id_resolution (some "") (some "order-created-event")
      "/schemas/messages/order-created-event.schema.json"
      (by decide)).2.2.2.1,
   (schema_id_resolution (some "") (some "order-created-event")
      "/schemas/messages/order-created-event.schema.json"
      (by decide)).2.2.2.2 Nat String [] { run := fun _ => (true, none) }⟩
